import Mathlib

/-!
Shallow embedding of the `token_vault` Anchor program
(`src/programs/token_vault/src/lib.rs`).

Addresses (Solana pubkeys) are modelled by an inductive type whose
constructors play the role of program-derived addresses: constructor
injectivity models collision resistance of PDA derivation.  Each
instruction is modelled as a pure function from its accounts (the data
the runtime hands the program after deserialization) to an
`Except ProgError` result; the account-constraint checks generated by
the `Accounts` structs (`seeds`/`bump`, `has_one`, `token::authority`,
`address`) are translated in the order the attributes list them,
followed by the literal body of the instruction handler.  `u64`
amounts become `Nat` (the SPL transfer guards the only subtraction and
checks the only addition against `2 ^ 64`), `i64` timestamps become
`Int`, and the on-chain clock is passed explicitly.
-/

namespace TokenVault

/-- Account addresses.  `user n` is an ordinary keypair address;
`vaultPda a b` is the address derived from seeds `["vault", a]` with
bump `b` (the vault account of authority `a`); `authorityPda va b` is
derived from seeds `["authority", va]` with bump `b` (the vault's
delegated signing authority). -/
inductive Addr : Type
  | user (id : Nat)
  | vaultPda (authority : Addr) (bump : Nat)
  | authorityPda (vaultAddr : Addr) (bump : Nat)
  deriving DecidableEq

/-- The `Vault` account data (struct `Vault` in `lib.rs`). -/
structure Vault : Type where
  authority : Addr
  token_account : Addr
  bump : Nat
  authority_bump : Nat
  is_locked : Bool
  unlock_timestamp : Int
  deriving DecidableEq

/-- An SPL token account, reduced to the fields the program reads:
its own address, its owner (authority) and its `amount` balance. -/
structure SplAccount : Type where
  address : Addr
  owner : Addr
  amount : Nat
  deriving DecidableEq

/-- The program's own error enum (`VaultError` in `lib.rs`).
`UnauthorizedAccess` is declared in the source but no instruction
raises it. -/
inductive VaultError : Type
  | VaultStillLocked
  | InsufficientFunds
  | UnauthorizedAccess
  | InvalidUnlockTime
  deriving DecidableEq

/-- Errors raised by the account-constraint checks that the
`#[derive(Accounts)]` structs generate before an instruction body
runs. -/
inductive AnchorError : Type
  | constraintSeeds
  | constraintHasOne
  | constraintTokenOwner
  | constraintAddress
  deriving DecidableEq

/-- Every error an instruction invocation can surface: a constraint
error from account validation, a `VaultError` from a `require!` in
the handler body, or an error from the SPL token program reached by
CPI. -/
inductive ProgError : Type
  | anchor (e : AnchorError)
  | vault (e : VaultError)
  | splOwnerMismatch
  | splInsufficientFunds
  | splOverflow
  deriving DecidableEq

/-- Modelled from the spec: the external Transfer Service
(`token::transfer` CPI into the SPL token program, which is not part
of this repository).  It requires `authority` to own the source
account, requires the source balance to cover `amount`, and checks
the destination balance against `u64` overflow; on success it moves
`amount` from source to destination. -/
def splTransfer (source dest : SplAccount) (authority : Addr) (amount : Nat) :
    Except ProgError (SplAccount × SplAccount) :=
  if source.owner ≠ authority then .error .splOwnerMismatch
  else if source.amount < amount then .error .splInsufficientFunds
  else if 2 ^ 64 ≤ dest.amount + amount then .error .splOverflow
  else .ok ({ source with amount := source.amount - amount },
            { dest with amount := dest.amount + amount })

/-- Instruction 1, `initialize_vault`: writes the fresh `Vault`
record.  `payer` is the signing wallet, `token_account` the address
of the token account created alongside the vault. -/
def initialize_vault (payer : Addr) (vault_bump authority_bump : Nat)
    (token_account : Addr) : Vault :=
  { authority := payer
    token_account := token_account
    bump := vault_bump
    authority_bump := authority_bump
    is_locked := false
    unlock_timestamp := 0 }

/-- Instruction 2, `deposit`: the `Deposit` accounts struct checks
the vault PDA seeds, `has_one = authority`, `token::authority =
authority` on the user token account and `address =
vault.token_account` on the vault token account; the body is a single
`token::transfer` from the user's account to the vault's account,
signed by the caller.  Returns the post-state
`(vault, user_token_account, vault_token_account)`. -/
def deposit (caller vaultAddr : Addr) (v : Vault)
    (user_token_account vault_token_account : SplAccount) (amount : Nat) :
    Except ProgError (Vault × SplAccount × SplAccount) :=
  if vaultAddr ≠ Addr.vaultPda caller v.bump then .error (.anchor .constraintSeeds)
  else if v.authority ≠ caller then .error (.anchor .constraintHasOne)
  else if user_token_account.owner ≠ caller then .error (.anchor .constraintTokenOwner)
  else if vault_token_account.address ≠ v.token_account then .error (.anchor .constraintAddress)
  else
    match splTransfer user_token_account vault_token_account caller amount with
    | .ok (uta', vta') => .ok (v, uta', vta')
    | .error e => .error e

/-- Instruction 3, `withdraw`: the `Withdraw` accounts struct checks
the vault PDA seeds, `has_one = authority`, the vault-authority PDA
seeds, `token::authority = authority` on the user token account and
`address = vault.token_account` on the vault token account; the body
then requires `!vault.is_locked || clock.unix_timestamp >=
vault.unlock_timestamp` (else `VaultStillLocked`), requires
`vault_token_account.amount >= amount` (else `InsufficientFunds`),
and performs a `token::transfer` out of the vault signed by the
vault-authority PDA.  The vault record itself is never written. -/
def withdraw (caller vaultAddr vaultAuthorityAddr : Addr) (v : Vault)
    (user_token_account vault_token_account : SplAccount)
    (now : Int) (amount : Nat) :
    Except ProgError (Vault × SplAccount × SplAccount) :=
  if vaultAddr ≠ Addr.vaultPda caller v.bump then .error (.anchor .constraintSeeds)
  else if v.authority ≠ caller then .error (.anchor .constraintHasOne)
  else if vaultAuthorityAddr ≠ Addr.authorityPda vaultAddr v.authority_bump then
    .error (.anchor .constraintSeeds)
  else if user_token_account.owner ≠ caller then .error (.anchor .constraintTokenOwner)
  else if vault_token_account.address ≠ v.token_account then .error (.anchor .constraintAddress)
  else if ¬(v.is_locked = false ∨ v.unlock_timestamp ≤ now) then
    .error (.vault .VaultStillLocked)
  else if ¬(amount ≤ vault_token_account.amount) then
    .error (.vault .InsufficientFunds)
  else
    match splTransfer vault_token_account user_token_account vaultAuthorityAddr amount with
    | .ok (vta', uta') => .ok (v, uta', vta')
    | .error e => .error e

/-- Instruction 4, `lock_vault`: after the `LockVault` constraint
checks (vault PDA seeds and `has_one = authority`), requires
`unlock_timestamp > clock.unix_timestamp` (else `InvalidUnlockTime`)
and then sets `is_locked := true` and stores the new
`unlock_timestamp`.  The current lock state is not consulted. -/
def lock_vault (caller vaultAddr : Addr) (v : Vault)
    (now unlock_timestamp : Int) : Except ProgError Vault :=
  if vaultAddr ≠ Addr.vaultPda caller v.bump then .error (.anchor .constraintSeeds)
  else if v.authority ≠ caller then .error (.anchor .constraintHasOne)
  else if ¬(now < unlock_timestamp) then .error (.vault .InvalidUnlockTime)
  else .ok { v with is_locked := true, unlock_timestamp := unlock_timestamp }

/-- Instruction 5, `unlock_vault`: after the `UnlockVault` constraint
checks, requires `clock.unix_timestamp >= vault.unlock_timestamp`
(else `VaultStillLocked`) and then sets `is_locked := false` and
resets `unlock_timestamp` to `0`. -/
def unlock_vault (caller vaultAddr : Addr) (v : Vault) (now : Int) :
    Except ProgError Vault :=
  if vaultAddr ≠ Addr.vaultPda caller v.bump then .error (.anchor .constraintSeeds)
  else if v.authority ≠ caller then .error (.anchor .constraintHasOne)
  else if ¬(v.unlock_timestamp ≤ now) then .error (.vault .VaultStillLocked)
  else .ok { v with is_locked := false, unlock_timestamp := 0 }

/-- Post-state of a `deposit` invocation: on failure the runtime
aborts the transaction and every account keeps its previous state. -/
def stepDeposit (caller vaultAddr : Addr) (v : Vault)
    (uta vta : SplAccount) (amount : Nat) : Vault × SplAccount × SplAccount :=
  match deposit caller vaultAddr v uta vta amount with
  | .ok r => r
  | .error _ => (v, uta, vta)

/-- Post-state of a `withdraw` invocation (accounts unchanged on
failure). -/
def stepWithdraw (caller vaultAddr vaAddr : Addr) (v : Vault)
    (uta vta : SplAccount) (now : Int) (amount : Nat) :
    Vault × SplAccount × SplAccount :=
  match withdraw caller vaultAddr vaAddr v uta vta now amount with
  | .ok r => r
  | .error _ => (v, uta, vta)

/-- Post-state of the vault record after a `lock_vault` invocation
(unchanged on failure). -/
def stepLock (caller vaultAddr : Addr) (v : Vault) (now t : Int) : Vault :=
  match lock_vault caller vaultAddr v now t with
  | .ok v' => v'
  | .error _ => v

/-- Post-state of the vault record after an `unlock_vault` invocation
(unchanged on failure). -/
def stepUnlock (caller vaultAddr : Addr) (v : Vault) (now : Int) : Vault :=
  match unlock_vault caller vaultAddr v now with
  | .ok v' => v'
  | .error _ => v

/-- One invocation of a mutating instruction, with all of its
caller-supplied accounts and arguments. -/
inductive Op : Type
  | deposit (caller vaultAddr : Addr) (uta vta : SplAccount) (amount : Nat)
  | withdraw (caller vaultAddr vaAddr : Addr) (uta vta : SplAccount) (now : Int) (amount : Nat)
  | lock (caller vaultAddr : Addr) (now t : Int)
  | unlock (caller vaultAddr : Addr) (now : Int)

/-- Effect of one invocation on the vault record (successful or
failed; a failed invocation leaves the record unchanged). -/
def applyOp (v : Vault) : Op → Vault
  | .deposit caller vaultAddr uta vta amount =>
      (stepDeposit caller vaultAddr v uta vta amount).1
  | .withdraw caller vaultAddr vaAddr uta vta now amount =>
      (stepWithdraw caller vaultAddr vaAddr v uta vta now amount).1
  | .lock caller vaultAddr now t => stepLock caller vaultAddr v now t
  | .unlock caller vaultAddr now => stepUnlock caller vaultAddr v now

/-- A concrete vault used by the witnesses: authority `user 0`, token
account at `user 9`, bumps 1 and 2, locked until time 10. -/
def exVault : Vault :=
  { authority := .user 0
    token_account := .user 9
    bump := 1
    authority_bump := 2
    is_locked := true
    unlock_timestamp := 10 }

/-- The address of `exVault` under the PDA derivation. -/
def exVaultAddr : Addr := .vaultPda (.user 0) 1

/-- The delegated-authority address of `exVault`. -/
def exVaAddr : Addr := .authorityPda exVaultAddr 2

/-- A user token account owned by `user 0` holding 5 tokens. -/
def exUta : SplAccount := { address := .user 3, owner := .user 0, amount := 5 }

/-- The vault's token account, owned by the authority PDA, holding
100 tokens. -/
def exVta : SplAccount := { address := .user 9, owner := exVaAddr, amount := 100 }

/-! Helper lemmas shared by the claim theorems. -/

theorem splTransfer_error_cases (s d : SplAccount) (a : Addr) (amt : Nat) (e : ProgError)
    (h : splTransfer s d a amt = Except.error e) :
    e = ProgError.splOwnerMismatch ∨ e = ProgError.splInsufficientFunds ∨
      e = ProgError.splOverflow := by
  unfold splTransfer at h
  split_ifs at h <;> simp_all

theorem deposit_ok_vault (caller vaultAddr : Addr) (v : Vault) (uta vta : SplAccount)
    (amount : Nat) (r : Vault × SplAccount × SplAccount)
    (h : deposit caller vaultAddr v uta vta amount = Except.ok r) : r.1 = v := by
  unfold deposit at h
  repeat' split at h
  all_goals (try simp_all)
  all_goals (subst h; rfl)

theorem withdraw_ok_vault (caller vaultAddr vaAddr : Addr) (v : Vault)
    (uta vta : SplAccount) (now : Int) (amount : Nat) (r : Vault × SplAccount × SplAccount)
    (h : withdraw caller vaultAddr vaAddr v uta vta now amount = Except.ok r) : r.1 = v := by
  unfold withdraw at h
  repeat' split at h
  all_goals (try simp_all)
  all_goals (subst h; rfl)

theorem stepDeposit_vault (caller vaultAddr : Addr) (v : Vault) (uta vta : SplAccount)
    (amount : Nat) : (stepDeposit caller vaultAddr v uta vta amount).1 = v := by
  unfold stepDeposit
  cases hd : deposit caller vaultAddr v uta vta amount with
  | error e => rfl
  | ok r => exact deposit_ok_vault _ _ _ _ _ _ _ hd

theorem stepWithdraw_vault (caller vaultAddr vaAddr : Addr) (v : Vault)
    (uta vta : SplAccount) (now : Int) (amount : Nat) :
    (stepWithdraw caller vaultAddr vaAddr v uta vta now amount).1 = v := by
  unfold stepWithdraw
  cases hd : withdraw caller vaultAddr vaAddr v uta vta now amount with
  | error e => rfl
  | ok r => exact withdraw_ok_vault _ _ _ _ _ _ _ _ _ hd

theorem lock_vault_ok (caller vaultAddr : Addr) (v : Vault) (now t : Int) (v' : Vault)
    (h : lock_vault caller vaultAddr v now t = Except.ok v') :
    v' = { v with is_locked := true, unlock_timestamp := t } := by
  unfold lock_vault at h
  split_ifs at h <;> simp_all

theorem unlock_vault_ok (caller vaultAddr : Addr) (v : Vault) (now : Int) (v' : Vault)
    (h : unlock_vault caller vaultAddr v now = Except.ok v') :
    v' = { v with is_locked := false, unlock_timestamp := 0 } := by
  unfold unlock_vault at h
  split_ifs at h <;> simp_all

theorem stepLock_frame (caller vaultAddr : Addr) (v : Vault) (now t : Int) :
    (stepLock caller vaultAddr v now t).authority = v.authority ∧
    (stepLock caller vaultAddr v now t).token_account = v.token_account ∧
    (stepLock caller vaultAddr v now t).bump = v.bump ∧
    (stepLock caller vaultAddr v now t).authority_bump = v.authority_bump := by
  unfold stepLock
  cases hd : lock_vault caller vaultAddr v now t with
  | error e => exact ⟨rfl, rfl, rfl, rfl⟩
  | ok v' =>
      have hv := lock_vault_ok _ _ _ _ _ _ hd
      subst hv
      exact ⟨rfl, rfl, rfl, rfl⟩

theorem stepUnlock_frame (caller vaultAddr : Addr) (v : Vault) (now : Int) :
    (stepUnlock caller vaultAddr v now).authority = v.authority ∧
    (stepUnlock caller vaultAddr v now).token_account = v.token_account ∧
    (stepUnlock caller vaultAddr v now).bump = v.bump ∧
    (stepUnlock caller vaultAddr v now).authority_bump = v.authority_bump := by
  unfold stepUnlock
  cases hd : unlock_vault caller vaultAddr v now with
  | error e => exact ⟨rfl, rfl, rfl, rfl⟩
  | ok v' =>
      have hv := unlock_vault_ok _ _ _ _ _ hd
      subst hv
      exact ⟨rfl, rfl, rfl, rfl⟩

theorem applyOp_frame (v : Vault) (op : Op) :
    (applyOp v op).authority = v.authority ∧
    (applyOp v op).token_account = v.token_account ∧
    (applyOp v op).bump = v.bump ∧
    (applyOp v op).authority_bump = v.authority_bump := by
  cases op with
  | deposit caller vaultAddr uta vta amount =>
      have h := stepDeposit_vault caller vaultAddr v uta vta amount
      simp [applyOp, h]
  | withdraw caller vaultAddr vaAddr uta vta now amount =>
      have h := stepWithdraw_vault caller vaultAddr vaAddr v uta vta now amount
      simp [applyOp, h]
  | lock caller vaultAddr now t => exact stepLock_frame caller vaultAddr v now t
  | unlock caller vaultAddr now => exact stepUnlock_frame caller vaultAddr v now

theorem foldl_applyOp_frame (ops : List Op) (v : Vault) :
    (List.foldl applyOp v ops).authority = v.authority ∧
    (List.foldl applyOp v ops).token_account = v.token_account := by
  induction ops generalizing v with
  | nil => exact ⟨rfl, rfl⟩
  | cons op ops ih =>
      simp only [List.foldl_cons]
      obtain ⟨h1, h2, _, _⟩ := applyOp_frame v op
      obtain ⟨i1, i2⟩ := ih (applyOp v op)
      exact ⟨i1.trans h1, i2.trans h2⟩

theorem deposit_unauth (caller vaultAddr : Addr) (v : Vault) (uta vta : SplAccount)
    (amount : Nat) (h : caller ≠ v.authority) :
    (deposit caller vaultAddr v uta vta amount = Except.error (.anchor .constraintSeeds) ∨
     deposit caller vaultAddr v uta vta amount = Except.error (.anchor .constraintHasOne)) ∧
    stepDeposit caller vaultAddr v uta vta amount = (v, uta, vta) := by
  by_cases hs : vaultAddr = Addr.vaultPda caller v.bump
  · subst hs
    refine ⟨Or.inr ?_, ?_⟩
    · unfold deposit
      simp [Ne.symm h]
    · unfold stepDeposit deposit
      simp [Ne.symm h]
  · refine ⟨Or.inl ?_, ?_⟩
    · unfold deposit
      simp [hs]
    · unfold stepDeposit deposit
      simp [hs]

theorem withdraw_unauth (caller vaultAddr vaAddr : Addr) (v : Vault)
    (uta vta : SplAccount) (now : Int) (amount : Nat) (h : caller ≠ v.authority) :
    (withdraw caller vaultAddr vaAddr v uta vta now amount =
       Except.error (.anchor .constraintSeeds) ∨
     withdraw caller vaultAddr vaAddr v uta vta now amount =
       Except.error (.anchor .constraintHasOne)) ∧
    stepWithdraw caller vaultAddr vaAddr v uta vta now amount = (v, uta, vta) := by
  by_cases hs : vaultAddr = Addr.vaultPda caller v.bump
  · subst hs
    refine ⟨Or.inr ?_, ?_⟩
    · unfold withdraw
      simp [Ne.symm h]
    · unfold stepWithdraw withdraw
      simp [Ne.symm h]
  · refine ⟨Or.inl ?_, ?_⟩
    · unfold withdraw
      simp [hs]
    · unfold stepWithdraw withdraw
      simp [hs]

theorem lock_unauth (caller vaultAddr : Addr) (v : Vault) (now t : Int)
    (h : caller ≠ v.authority) :
    (lock_vault caller vaultAddr v now t = Except.error (.anchor .constraintSeeds) ∨
     lock_vault caller vaultAddr v now t = Except.error (.anchor .constraintHasOne)) ∧
    stepLock caller vaultAddr v now t = v := by
  by_cases hs : vaultAddr = Addr.vaultPda caller v.bump
  · subst hs
    refine ⟨Or.inr ?_, ?_⟩
    · unfold lock_vault
      simp [Ne.symm h]
    · unfold stepLock lock_vault
      simp [Ne.symm h]
  · refine ⟨Or.inl ?_, ?_⟩
    · unfold lock_vault
      simp [hs]
    · unfold stepLock lock_vault
      simp [hs]

theorem unlock_unauth (caller vaultAddr : Addr) (v : Vault) (now : Int)
    (h : caller ≠ v.authority) :
    (unlock_vault caller vaultAddr v now = Except.error (.anchor .constraintSeeds) ∨
     unlock_vault caller vaultAddr v now = Except.error (.anchor .constraintHasOne)) ∧
    stepUnlock caller vaultAddr v now = v := by
  by_cases hs : vaultAddr = Addr.vaultPda caller v.bump
  · subst hs
    refine ⟨Or.inr ?_, ?_⟩
    · unfold unlock_vault
      simp [Ne.symm h]
    · unfold stepUnlock unlock_vault
      simp [Ne.symm h]
  · refine ⟨Or.inl ?_, ?_⟩
    · unfold unlock_vault
      simp [hs]
    · unfold stepUnlock unlock_vault
      simp [hs]

/-! Claim theorems. -/

/-- Claim C7: for every caller, a successful Initialize produces a
vault record whose authority is the caller's identity, whose bound
token account is the newly created one, and whose lock state is
`is_locked = false` with `unlock_timestamp = 0` — every vault starts
Unlocked. -/
theorem c7_initialize_fields (payer : Addr) (vault_bump authority_bump : Nat)
    (token_account : Addr) :
    (initialize_vault payer vault_bump authority_bump token_account).authority = payer ∧
    (initialize_vault payer vault_bump authority_bump token_account).token_account
      = token_account ∧
    (initialize_vault payer vault_bump authority_bump token_account).is_locked = false ∧
    (initialize_vault payer vault_bump authority_bump token_account).unlock_timestamp = 0 :=
  ⟨rfl, rfl, rfl, rfl⟩

/-- Claim C3: with the account constraints satisfied, Lock succeeds
exactly when the requested `unlock_timestamp` is strictly greater
than the clock, failing `InvalidUnlockTime` otherwise and leaving the
vault record unchanged; on success `is_locked` becomes `true` and
`unlock_timestamp` becomes the requested value. -/
theorem c3_lock_guard (caller vaultAddr : Addr) (v : Vault) (now t : Int)
    (hseeds : vaultAddr = Addr.vaultPda caller v.bump)
    (hauth : v.authority = caller) :
    lock_vault caller vaultAddr v now t =
      (if now < t then Except.ok { v with is_locked := true, unlock_timestamp := t }
       else Except.error (.vault .InvalidUnlockTime)) ∧
    stepLock caller vaultAddr v now t =
      (if now < t then { v with is_locked := true, unlock_timestamp := t } else v) := by
  subst hseeds
  have hl : lock_vault caller (Addr.vaultPda caller v.bump) v now t =
      (if now < t then Except.ok { v with is_locked := true, unlock_timestamp := t }
       else Except.error (.vault .InvalidUnlockTime)) := by
    unfold lock_vault
    simp only [hauth, ite_not, ne_eq, not_true_eq_false, if_false, not_lt]
    split_ifs with h1 h2 <;> first | rfl | omega
  refine ⟨hl, ?_⟩
  unfold stepLock
  rw [hl]
  by_cases hc : now < t
  · simp [hc]
  · simp [hc]

/-- Witness for C3 at a concrete locked vault: locking for time 100
at clock 4 succeeds and stores the new timestamp. -/
theorem c3_witness :
    (lock_vault (.user 0) exVaultAddr exVault 4 100 =
      (if (4 : Int) < 100 then
         Except.ok { exVault with is_locked := true, unlock_timestamp := 100 }
       else Except.error (.vault .InvalidUnlockTime))) ∧
    (stepLock (.user 0) exVaultAddr exVault 4 100 =
      (if (4 : Int) < 100 then { exVault with is_locked := true, unlock_timestamp := 100 }
       else exVault)) :=
  c3_lock_guard (.user 0) exVaultAddr exVault 4 100 rfl rfl

/-- Claim C5: with the account constraints satisfied, Unlock succeeds
exactly when the clock has reached the stored `unlock_timestamp`,
failing `VaultStillLocked` otherwise and leaving the record
unchanged; on success `is_locked` becomes `false` and
`unlock_timestamp` is reset to 0. -/
theorem c5_unlock_guard (caller vaultAddr : Addr) (v : Vault) (now : Int)
    (hseeds : vaultAddr = Addr.vaultPda caller v.bump)
    (hauth : v.authority = caller) :
    unlock_vault caller vaultAddr v now =
      (if v.unlock_timestamp ≤ now then
         Except.ok { v with is_locked := false, unlock_timestamp := 0 }
       else Except.error (.vault .VaultStillLocked)) ∧
    stepUnlock caller vaultAddr v now =
      (if v.unlock_timestamp ≤ now then
         { v with is_locked := false, unlock_timestamp := 0 }
       else v) := by
  subst hseeds
  have hl : unlock_vault caller (Addr.vaultPda caller v.bump) v now =
      (if v.unlock_timestamp ≤ now then
         Except.ok { v with is_locked := false, unlock_timestamp := 0 }
       else Except.error (.vault .VaultStillLocked)) := by
    unfold unlock_vault
    simp only [hauth, ite_not, ne_eq, not_true_eq_false, if_false, not_le]
    split_ifs with h1 h2 <;> first | rfl | omega
  refine ⟨hl, ?_⟩
  unfold stepUnlock
  rw [hl]
  by_cases hc : v.unlock_timestamp ≤ now
  · simp [hc]
  · simp [hc]

/-- Witness for C5 at a concrete vault locked until time 10: at clock
3 Unlock fails `VaultStillLocked`; the stated equation also fixes the
success branch. -/
theorem c5_witness :
    (unlock_vault (.user 0) exVaultAddr exVault 3 =
      (if exVault.unlock_timestamp ≤ (3 : Int) then
         Except.ok { exVault with is_locked := false, unlock_timestamp := 0 }
       else Except.error (.vault .VaultStillLocked))) ∧
    (stepUnlock (.user 0) exVaultAddr exVault 3 =
      (if exVault.unlock_timestamp ≤ (3 : Int) then
         { exVault with is_locked := false, unlock_timestamp := 0 }
       else exVault)) :=
  c5_unlock_guard (.user 0) exVaultAddr exVault 3 rfl rfl

/-- Claim C1: with the account constraints satisfied, Withdraw fails
`VaultStillLocked` exactly when the vault is locked and the clock has
not reached `unlock_timestamp` (so it is permitted exactly when
`!is_locked || now >= unlock_timestamp`); and the vault record —
`is_locked` and `unlock_timestamp` included — is unchanged by every
Withdraw, successful or not: the lock flag is never cleared by
Withdraw. -/
theorem c1_withdraw_lock_gate (caller vaultAddr vaAddr : Addr) (v : Vault)
    (uta vta : SplAccount) (now : Int) (amount : Nat)
    (hseeds : vaultAddr = Addr.vaultPda caller v.bump)
    (hauth : v.authority = caller)
    (hva : vaAddr = Addr.authorityPda vaultAddr v.authority_bump)
    (huta : uta.owner = caller)
    (hvta : vta.address = v.token_account) :
    (withdraw caller vaultAddr vaAddr v uta vta now amount =
        Except.error (.vault .VaultStillLocked)
      ↔ ¬(v.is_locked = false ∨ v.unlock_timestamp ≤ now)) ∧
    (stepWithdraw caller vaultAddr vaAddr v uta vta now amount).1 = v := by
  refine ⟨?_, stepWithdraw_vault _ _ _ _ _ _ _ _⟩
  subst hseeds
  subst hva
  unfold withdraw
  by_cases hc : v.is_locked = false ∨ v.unlock_timestamp ≤ now
  · by_cases hb : amount ≤ vta.amount
    · cases hsp : splTransfer vta uta
          (Addr.authorityPda (Addr.vaultPda caller v.bump) v.authority_bump) amount with
      | ok p => simp [hauth, huta, hvta, hc, hb, hsp]
      | error e =>
          rcases splTransfer_error_cases _ _ _ _ _ hsp with he | he | he <;>
            simp [hauth, huta, hvta, hc, hb, hsp, he]
    · simp [hauth, huta, hvta, hc, hb]
  · simp [hauth, huta, hvta, hc]

/-- Witness for C1: the example vault is locked until time 10, so at
clock 4 Withdraw fails `VaultStillLocked`, and the vault record is
unchanged. -/
theorem c1_witness :
    (withdraw (.user 0) exVaultAddr exVaAddr exVault exUta exVta 4 5 =
        Except.error (.vault .VaultStillLocked)
      ↔ ¬(exVault.is_locked = false ∨ exVault.unlock_timestamp ≤ (4 : Int))) ∧
    (stepWithdraw (.user 0) exVaultAddr exVaAddr exVault exUta exVta 4 5).1 = exVault :=
  c1_withdraw_lock_gate (.user 0) exVaultAddr exVaAddr exVault exUta exVta 4 5
    rfl rfl rfl rfl rfl

/-- Claim C6: with the account constraints satisfied, when the
requested amount exceeds the vault token account's balance Withdraw
fails — with `InsufficientFunds` when the lock-bypass condition
holds, but with `VaultStillLocked` when both preconditions are
violated, because the time-lock check is evaluated first — and the
vault record and both balances are unchanged. -/
theorem c6_withdraw_error_order (caller vaultAddr vaAddr : Addr) (v : Vault)
    (uta vta : SplAccount) (now : Int) (amount : Nat)
    (hseeds : vaultAddr = Addr.vaultPda caller v.bump)
    (hauth : v.authority = caller)
    (hva : vaAddr = Addr.authorityPda vaultAddr v.authority_bump)
    (huta : uta.owner = caller)
    (hvta : vta.address = v.token_account)
    (hbal : vta.amount < amount) :
    withdraw caller vaultAddr vaAddr v uta vta now amount =
      Except.error (.vault
        (if v.is_locked = false ∨ v.unlock_timestamp ≤ now then .InsufficientFunds
         else .VaultStillLocked)) ∧
    stepWithdraw caller vaultAddr vaAddr v uta vta now amount = (v, uta, vta) := by
  subst hseeds
  subst hva
  have hb : ¬(amount ≤ vta.amount) := by omega
  have hw : withdraw caller (Addr.vaultPda caller v.bump)
      (Addr.authorityPda (Addr.vaultPda caller v.bump) v.authority_bump) v uta vta
      now amount =
      Except.error (.vault
        (if v.is_locked = false ∨ v.unlock_timestamp ≤ now then .InsufficientFunds
         else .VaultStillLocked)) := by
    unfold withdraw
    by_cases hc : v.is_locked = false ∨ v.unlock_timestamp ≤ now
    · simp [hauth, huta, hvta, hc, hb]
    · simp [hauth, huta, hvta, hc]
  refine ⟨hw, ?_⟩
  unfold stepWithdraw
  rw [hw]

/-- Witness for C6: the example vault is locked until time 10 and
holds 100 tokens; a withdrawal of 200 at clock 4 violates both
preconditions and surfaces `VaultStillLocked`. -/
theorem c6_witness :
    withdraw (.user 0) exVaultAddr exVaAddr exVault exUta exVta 4 200 =
      Except.error (.vault
        (if exVault.is_locked = false ∨ exVault.unlock_timestamp ≤ (4 : Int) then
           .InsufficientFunds
         else .VaultStillLocked)) ∧
    stepWithdraw (.user 0) exVaultAddr exVaAddr exVault exUta exVta 4 200 =
      (exVault, exUta, exVta) :=
  c6_withdraw_error_order (.user 0) exVaultAddr exVaAddr exVault exUta exVta 4 200
    rfl rfl rfl rfl rfl (by decide)

/-- Claim C9: Deposit never consults the time lock — the vault's
`is_locked` and `unlock_timestamp` are arbitrary here, locked states
included — and an authorized Deposit with sufficient source balance
succeeds, its only effect being the delegated balance transfer; the
vault record is returned unchanged, and is also unchanged on every
failure. -/
theorem c9_deposit_ignores_lock (caller vaultAddr : Addr) (v : Vault)
    (uta vta : SplAccount) (amount : Nat)
    (hseeds : vaultAddr = Addr.vaultPda caller v.bump)
    (hauth : v.authority = caller)
    (huta : uta.owner = caller)
    (hvta : vta.address = v.token_account)
    (hbal : amount ≤ uta.amount)
    (hover : vta.amount + amount < 2 ^ 64) :
    deposit caller vaultAddr v uta vta amount =
      Except.ok (v, { uta with amount := uta.amount - amount },
                    { vta with amount := vta.amount + amount }) ∧
    (stepDeposit caller vaultAddr v uta vta amount).1 = v := by
  refine ⟨?_, stepDeposit_vault _ _ _ _ _ _⟩
  subst hseeds
  have h1 : ¬(uta.amount < amount) := by omega
  have h2 : ¬(2 ^ 64 ≤ vta.amount + amount) := by omega
  unfold deposit splTransfer
  simp [hauth, huta, hvta, h1]
  have hC : ¬(18446744073709551616 ≤ vta.amount + amount) := by omega
  rw [if_neg hC]

/-- Witness for C9: depositing 5 tokens into the example vault —
which is locked until time 10 — succeeds and only moves balances. -/
theorem c9_witness :
    deposit (.user 0) exVaultAddr exVault exUta exVta 5 =
      Except.ok (exVault, { exUta with amount := exUta.amount - 5 },
                          { exVta with amount := exVta.amount + 5 }) ∧
    (stepDeposit (.user 0) exVaultAddr exVault exUta exVta 5).1 = exVault :=
  c9_deposit_ignores_lock (.user 0) exVaultAddr exVault exUta exVta 5
    rfl rfl rfl rfl (by decide) (by decide)

/-- Claim C10: Unlock does not require the vault to be locked: on an
unlocked vault with zero timestamp, any non-negative clock lets
Unlock succeed with the record unchanged; an immediately following
second Unlock also succeeds, and Unlock is idempotent on the vault
record. -/
theorem c10_unlock_idempotent (caller vaultAddr : Addr) (v : Vault) (now now2 : Int)
    (hseeds : vaultAddr = Addr.vaultPda caller v.bump)
    (hauth : v.authority = caller)
    (hlock : v.is_locked = false)
    (hts : v.unlock_timestamp = 0)
    (hnow : 0 ≤ now)
    (hnow2 : 0 ≤ now2) :
    unlock_vault caller vaultAddr v now = Except.ok v ∧
    unlock_vault caller vaultAddr (stepUnlock caller vaultAddr v now) now2 =
      Except.ok (stepUnlock caller vaultAddr v now) ∧
    stepUnlock caller vaultAddr (stepUnlock caller vaultAddr v now) now2 =
      stepUnlock caller vaultAddr v now := by
  subst hseeds
  have hv : ({ authority := caller,
               token_account := v.token_account,
               bump := v.bump,
               authority_bump := v.authority_bump,
               is_locked := false,
               unlock_timestamp := 0 } : Vault) = v := by
    cases v
    simp_all
  have h1 : unlock_vault caller (Addr.vaultPda caller v.bump) v now = Except.ok v := by
    unfold unlock_vault
    rw [hts]
    simp [hauth, hnow, hv]
  have h2 : unlock_vault caller (Addr.vaultPda caller v.bump) v now2 = Except.ok v := by
    unfold unlock_vault
    rw [hts]
    simp [hauth, hnow2, hv]
  have hstep : stepUnlock caller (Addr.vaultPda caller v.bump) v now = v := by
    unfold stepUnlock
    rw [h1]
  refine ⟨h1, ?_, ?_⟩
  · rw [hstep]
    exact h2
  · rw [hstep]
    unfold stepUnlock
    rw [h2]

/-- Witness for C10: a freshly initialized (unlocked) vault is
unlocked again at clocks 7 and 8 with no change to the record. -/
theorem c10_witness :
    unlock_vault (.user 0) exVaultAddr (initialize_vault (.user 0) 1 2 (.user 9)) 7 =
      Except.ok (initialize_vault (.user 0) 1 2 (.user 9)) ∧
    unlock_vault (.user 0) exVaultAddr
        (stepUnlock (.user 0) exVaultAddr (initialize_vault (.user 0) 1 2 (.user 9)) 7) 8 =
      Except.ok
        (stepUnlock (.user 0) exVaultAddr (initialize_vault (.user 0) 1 2 (.user 9)) 7) ∧
    stepUnlock (.user 0) exVaultAddr
        (stepUnlock (.user 0) exVaultAddr (initialize_vault (.user 0) 1 2 (.user 9)) 7) 8 =
      stepUnlock (.user 0) exVaultAddr (initialize_vault (.user 0) 1 2 (.user 9)) 7 :=
  c10_unlock_idempotent (.user 0) exVaultAddr (initialize_vault (.user 0) 1 2 (.user 9))
    7 8 rfl rfl rfl rfl (by decide) (by decide)

/-- Claim C8: across every sequence of Deposit/Withdraw/Lock/Unlock
invocations (successful or failed), the vault's authority and bound
token account keep the values Initialize gave them; and a successful
Lock or Unlock changes nothing besides `is_locked` and
`unlock_timestamp` (the cached bumps included). -/
theorem c8_identity_immutable (payer : Addr) (vault_bump authority_bump : Nat)
    (token_account : Addr) (ops : List Op) (caller vaultAddr : Addr) (w wl wu : Vault)
    (nowl tl nowu : Int)
    (hlock : lock_vault caller vaultAddr w nowl tl = Except.ok wl)
    (hunlock : unlock_vault caller vaultAddr w nowu = Except.ok wu) :
    (List.foldl applyOp (initialize_vault payer vault_bump authority_bump token_account)
        ops).authority = payer ∧
    (List.foldl applyOp (initialize_vault payer vault_bump authority_bump token_account)
        ops).token_account = token_account ∧
    (wl.authority = w.authority ∧ wl.token_account = w.token_account ∧
      wl.bump = w.bump ∧ wl.authority_bump = w.authority_bump) ∧
    (wu.authority = w.authority ∧ wu.token_account = w.token_account ∧
      wu.bump = w.bump ∧ wu.authority_bump = w.authority_bump) := by
  obtain ⟨f1, f2⟩ := foldl_applyOp_frame ops
    (initialize_vault payer vault_bump authority_bump token_account)
  have hl := lock_vault_ok _ _ _ _ _ _ hlock
  have hu := unlock_vault_ok _ _ _ _ _ hunlock
  subst hl
  subst hu
  exact ⟨f1.trans rfl, f2.trans rfl, ⟨rfl, rfl, rfl, rfl⟩, ⟨rfl, rfl, rfl, rfl⟩⟩

/-- Witness for C8: one lock-then-unlock run starting from a fresh
vault, with a successful concrete Lock and a successful concrete
Unlock of the example vault. -/
theorem c8_witness :
    (List.foldl applyOp (initialize_vault (.user 0) 1 2 (.user 9))
        [Op.lock (.user 0) exVaultAddr 0 5, Op.unlock (.user 0) exVaultAddr 6]).authority
      = .user 0 ∧
    (List.foldl applyOp (initialize_vault (.user 0) 1 2 (.user 9))
        [Op.lock (.user 0) exVaultAddr 0 5, Op.unlock (.user 0) exVaultAddr 6]).token_account
      = .user 9 ∧
    (({ exVault with is_locked := true, unlock_timestamp := 100 } : Vault).authority
        = exVault.authority ∧
      ({ exVault with is_locked := true, unlock_timestamp := 100 } : Vault).token_account
        = exVault.token_account ∧
      ({ exVault with is_locked := true, unlock_timestamp := 100 } : Vault).bump
        = exVault.bump ∧
      ({ exVault with is_locked := true, unlock_timestamp := 100 } : Vault).authority_bump
        = exVault.authority_bump) ∧
    (({ exVault with is_locked := false, unlock_timestamp := 0 } : Vault).authority
        = exVault.authority ∧
      ({ exVault with is_locked := false, unlock_timestamp := 0 } : Vault).token_account
        = exVault.token_account ∧
      ({ exVault with is_locked := false, unlock_timestamp := 0 } : Vault).bump
        = exVault.bump ∧
      ({ exVault with is_locked := false, unlock_timestamp := 0 } : Vault).authority_bump
        = exVault.authority_bump) :=
  c8_identity_immutable (.user 0) 1 2 (.user 9)
    [Op.lock (.user 0) exVaultAddr 0 5, Op.unlock (.user 0) exVaultAddr 6]
    (.user 0) exVaultAddr exVault
    { exVault with is_locked := true, unlock_timestamp := 100 }
    { exVault with is_locked := false, unlock_timestamp := 0 }
    20 100 50 (by rfl) (by rfl)

/-- Counterexample for C2: the caller `user 1` differs from the
vault's authority `user 0`, yet the failure is the account-constraint
error `ConstraintHasOne` generated by `has_one = authority` (here the
attacker presents the vault account under an address derived from
their own key, so the seeds check passes), not the program's declared
`VaultError::UnauthorizedAccess`, which no instruction ever raises. -/
theorem c2_counterexample :
    lock_vault (.user 1) (.vaultPda (.user 1) 1) exVault 0 100 =
      Except.error (.anchor .constraintHasOne) ∧
    (Except.error (.anchor .constraintHasOne) : Except ProgError Vault) ≠
      Except.error (.vault .UnauthorizedAccess) :=
  ⟨by rfl, by simp⟩

/-- Claim C2 as amended: an invocation of Deposit, Withdraw, Lock or
Unlock whose caller differs from the vault's recorded authority
always fails — with the account-validation error `ConstraintSeeds` or
`ConstraintHasOne`, not with the declared-but-unused
`UnauthorizedAccess` — and leaves every field of the vault record
(and, for Deposit/Withdraw, both token balances) unchanged. -/
theorem c2_auth_reject_amended (caller vaultAddr vaAddr : Addr) (v : Vault)
    (uta vta : SplAccount) (now t : Int) (amount : Nat)
    (h : caller ≠ v.authority) :
    ((deposit caller vaultAddr v uta vta amount = Except.error (.anchor .constraintSeeds) ∨
      deposit caller vaultAddr v uta vta amount = Except.error (.anchor .constraintHasOne)) ∧
     stepDeposit caller vaultAddr v uta vta amount = (v, uta, vta)) ∧
    ((withdraw caller vaultAddr vaAddr v uta vta now amount =
        Except.error (.anchor .constraintSeeds) ∨
      withdraw caller vaultAddr vaAddr v uta vta now amount =
        Except.error (.anchor .constraintHasOne)) ∧
     stepWithdraw caller vaultAddr vaAddr v uta vta now amount = (v, uta, vta)) ∧
    ((lock_vault caller vaultAddr v now t = Except.error (.anchor .constraintSeeds) ∨
      lock_vault caller vaultAddr v now t = Except.error (.anchor .constraintHasOne)) ∧
     stepLock caller vaultAddr v now t = v) ∧
    ((unlock_vault caller vaultAddr v now = Except.error (.anchor .constraintSeeds) ∨
      unlock_vault caller vaultAddr v now = Except.error (.anchor .constraintHasOne)) ∧
     stepUnlock caller vaultAddr v now = v) :=
  ⟨deposit_unauth caller vaultAddr v uta vta amount h,
   withdraw_unauth caller vaultAddr vaAddr v uta vta now amount h,
   lock_unauth caller vaultAddr v now t h,
   unlock_unauth caller vaultAddr v now h⟩

/-- Witness for C2 as amended: `user 1` attacking the vault of
`user 0` at its real address fails every instruction with a
constraint error and changes nothing. -/
theorem c2_witness :
    ((deposit (.user 1) exVaultAddr exVault exUta exVta 5 =
        Except.error (.anchor .constraintSeeds) ∨
      deposit (.user 1) exVaultAddr exVault exUta exVta 5 =
        Except.error (.anchor .constraintHasOne)) ∧
     stepDeposit (.user 1) exVaultAddr exVault exUta exVta 5 = (exVault, exUta, exVta)) ∧
    ((withdraw (.user 1) exVaultAddr exVaAddr exVault exUta exVta 4 5 =
        Except.error (.anchor .constraintSeeds) ∨
      withdraw (.user 1) exVaultAddr exVaAddr exVault exUta exVta 4 5 =
        Except.error (.anchor .constraintHasOne)) ∧
     stepWithdraw (.user 1) exVaultAddr exVaAddr exVault exUta exVta 4 5 =
       (exVault, exUta, exVta)) ∧
    ((lock_vault (.user 1) exVaultAddr exVault 4 100 =
        Except.error (.anchor .constraintSeeds) ∨
      lock_vault (.user 1) exVaultAddr exVault 4 100 =
        Except.error (.anchor .constraintHasOne)) ∧
     stepLock (.user 1) exVaultAddr exVault 4 100 = exVault) ∧
    ((unlock_vault (.user 1) exVaultAddr exVault 50 =
        Except.error (.anchor .constraintSeeds) ∨
      unlock_vault (.user 1) exVaultAddr exVault 50 =
        Except.error (.anchor .constraintHasOne)) ∧
     stepUnlock (.user 1) exVaultAddr exVault 50 = exVault) :=
  c2_auth_reject_amended (.user 1) exVaultAddr exVaAddr exVault exUta exVta 4 100 5
    (by simp [exVault])

/-- Counterexample for C4: the example vault is already locked (until
time 10), yet Lock at clock 0 with requested timestamp 5 succeeds —
and even shortens the lock, overwriting `unlock_timestamp` from 10 to
5.  `lock_vault` never consults `is_locked`. -/
theorem c4_counterexample :
    exVault.is_locked = true ∧
    lock_vault (.user 0) exVaultAddr exVault 0 5 =
      Except.ok { exVault with is_locked := true, unlock_timestamp := 5 } :=
  ⟨rfl, by rfl⟩

/-- Claim C4 as amended: Lock is not restricted to the Unlocked
state: whenever the requested timestamp is strictly in the future it
succeeds on any vault, locked or not, setting `is_locked := true` and
overwriting `unlock_timestamp` (possibly with an earlier deadline). -/
theorem c4_relock_amended (caller vaultAddr : Addr) (v : Vault) (now t : Int)
    (hseeds : vaultAddr = Addr.vaultPda caller v.bump)
    (hauth : v.authority = caller)
    (ht : now < t) :
    lock_vault caller vaultAddr v now t =
      Except.ok { v with is_locked := true, unlock_timestamp := t } := by
  subst hseeds
  unfold lock_vault
  simp [hauth, ht]

/-- Witness for C4 as amended: re-locking the already-locked example
vault at clock 20 for time 200 succeeds. -/
theorem c4_witness :
    lock_vault (.user 0) exVaultAddr exVault 20 200 =
      Except.ok { exVault with is_locked := true, unlock_timestamp := 200 } :=
  c4_relock_amended (.user 0) exVaultAddr exVault 20 200 rfl rfl (by decide)

end TokenVault
